import Mathlib

/-!
Verification of the streaming anomaly-detection core of the
Vehicle-Failure-Prediction-Agents repository.

The embedding models:
* `ruleGate` (src/predefined_Rules.py): the per-packet health gate.  A packet
  is a nested association list of sensor groups; a field access on a missing
  key raises (modelled with `Except`), exactly as Python raises `KeyError`.
  Each of the six predicates is a short-circuiting conjunction, so a later
  conjunct is only read when the earlier conjuncts hold, matching Python
  `and` semantics and the order of subscript evaluation in the source.
* the rolling buffer (`collections.deque(maxlen=N)` in src/fetch.py and
  src/main.py), modelled as a list that keeps the last `N` appended items.
* the per-episode escalation latch (`rca_capa_triggered` in src/main.py),
  modelled as a step function over buffer-occupancy readings.
* the stream-driver loop of `load_and_process_all_packets` (src/fetch.py),
  including the try/except around `ruleGate` and around the external
  analysis call, with the external collaborator abstracted as a behavior
  oracle.
* the escalation payload's buffer snapshot (`list(buffer)` in
  src/fetch.py), modelled with an explicit store of packet objects and a
  list of references, which is what Python's shallow copy actually copies.

Numeric values are modelled as rationals; all comparisons in the source are
order comparisons on decimal literals, which ℚ represents exactly.
-/

namespace VehicleFailure

/-- One sensor group: a mapping from sensor name to numeric value
(`packet["battery_sensors"]` etc. in the source). -/
abbrev SensorGroup := List (String × ℚ)

/-- A telemetry packet: a mapping from group name to sensor group. -/
abbrev Packet := List (String × SensorGroup)

/-- Field access `packet[grp][fld]`.  A missing group or field raises a
`KeyError` carrying the missing key, modelled as `Except.error`. -/
def pGet (packet : Packet) (grp fld : String) : Except String ℚ :=
  match packet.lookup grp with
  | none => Except.error grp
  | some g =>
    match g.lookup fld with
    | none => Except.error fld
    | some v => Except.ok v

/-- Predicate 1 of `ruleGate` (battery imbalance under load), returning
whether it fires.  The cell delta is computed before the comparison, and the
pack current is only read when the delta comparison holds (Python `and`
short-circuits). -/
def gateCheck1 (packet : Packet) : Except String Bool := do
  let maxv ← pGet packet "battery_sensors" "battery_cell_max_voltage_v"
  let minv ← pGet packet "battery_sensors" "battery_cell_min_voltage_v"
  let cell_delta := maxv - minv
  if cell_delta > 0.08 then
    let cur ← pGet packet "battery_sensors" "battery_pack_current_a"
    pure (decide (cur > 120))
  else
    pure false

/-- Predicate 2 of `ruleGate` (thermal stress coupling). -/
def gateCheck2 (packet : Packet) : Except String Bool := do
  let rpm ← pGet packet "motor_inverter_sensors" "motor_rpm"
  if rpm > 7600 then
    let itemp ← pGet packet "motor_inverter_sensors" "inverter_temperature_c"
    if itemp > 56 then
      let rise ← pGet packet "rate_of_change" "battery_temp_rise_rate_c_per_min"
      pure (decide (rise > 0.48))
    else
      pure false
  else
    pure false

/-- Predicate 3 of `ruleGate` (sustained electrical stress). -/
def gateCheck3 (packet : Packet) : Except String Bool := do
  let pv ← pGet packet "battery_sensors" "battery_pack_voltage_v"
  if pv < 370 then
    let cur ← pGet packet "battery_sensors" "battery_pack_current_a"
    pure (decide (cur > 125))
  else
    pure false

/-- Predicate 4 of `ruleGate` (signal consistency degradation). -/
def gateCheck4 (packet : Packet) : Except String Bool := do
  let gps ← pGet packet "signal_consistency" "gps_vs_wheel_speed_delta"
  if gps > 2.2 then
    let vr ← pGet packet "signal_consistency" "wheel_speed_variance_ratio"
    pure (decide (vr > 1.06))
  else
    pure false

/-- Predicate 5 of `ruleGate` (thermal aging awareness). -/
def gateCheck5 (packet : Packet) : Except String Bool := do
  let tcc ← pGet packet "component_aging" "thermal_cycle_count"
  if tcc > 950 then
    let bt ← pGet packet "battery_sensors" "battery_temperature_avg_c"
    pure (decide (bt > 33.5))
  else
    pure false

/-- Predicate 6 of `ruleGate` (environmental and load interaction). -/
def gateCheck6 (packet : Packet) : Except String Bool := do
  let amb ← pGet packet "environmental_sensors" "ambient_air_temperature_c"
  if amb > 30 then
    let load ← pGet packet "operational_context" "vehicle_load_estimated_kg"
    if load > 220 then
      let cur ← pGet packet "battery_sensors" "battery_pack_current_a"
      pure (decide (cur > 122))
    else
      pure false
  else
    pure false

set_option linter.unusedVariables false in
/-- `ruleGate(packet, MD)` from src/predefined_Rules.py lines 36-91.
Returns `ok true` for healthy, `ok false` for anomaly, and `error key` when
a field access raises `KeyError key`.  The six predicates run in source
order and the first that fires returns `False` (anomaly); the `MD` argument
is accepted but, as in the source, never read. -/
def ruleGate (packet : Packet) (MD : List (String × ℚ)) : Except String Bool := do
  let c1 ← gateCheck1 packet
  if c1 then
    pure false
  else
    let c2 ← gateCheck2 packet
    if c2 then
      pure false
    else
      let c3 ← gateCheck3 packet
      if c3 then
        pure false
      else
        let c4 ← gateCheck4 packet
        if c4 then
          pure false
        else
          let c5 ← gateCheck5 packet
          if c5 then
            pure false
          else
            let c6 ← gateCheck6 packet
            if c6 then
              pure false
            else
              pure true

/-- The thirteen sensor readings read by `ruleGate`, for building packets in
which every referenced field is present. -/
structure SensorValues where
  battery_cell_max_voltage_v : ℚ
  battery_cell_min_voltage_v : ℚ
  battery_pack_current_a : ℚ
  battery_pack_voltage_v : ℚ
  battery_temperature_avg_c : ℚ
  motor_rpm : ℚ
  inverter_temperature_c : ℚ
  battery_temp_rise_rate_c_per_min : ℚ
  gps_vs_wheel_speed_delta : ℚ
  wheel_speed_variance_ratio : ℚ
  thermal_cycle_count : ℚ
  ambient_air_temperature_c : ℚ
  vehicle_load_estimated_kg : ℚ
deriving DecidableEq

/-- A full packet holding the given values for every field `ruleGate`
reads, grouped as in the dataset schema. -/
def mkPacket (v : SensorValues) : Packet :=
  [ ("battery_sensors",
      [ ("battery_cell_max_voltage_v", v.battery_cell_max_voltage_v)
      , ("battery_cell_min_voltage_v", v.battery_cell_min_voltage_v)
      , ("battery_pack_current_a", v.battery_pack_current_a)
      , ("battery_pack_voltage_v", v.battery_pack_voltage_v)
      , ("battery_temperature_avg_c", v.battery_temperature_avg_c) ])
  , ("motor_inverter_sensors",
      [ ("motor_rpm", v.motor_rpm)
      , ("inverter_temperature_c", v.inverter_temperature_c) ])
  , ("rate_of_change",
      [ ("battery_temp_rise_rate_c_per_min", v.battery_temp_rise_rate_c_per_min) ])
  , ("signal_consistency",
      [ ("gps_vs_wheel_speed_delta", v.gps_vs_wheel_speed_delta)
      , ("wheel_speed_variance_ratio", v.wheel_speed_variance_ratio) ])
  , ("component_aging",
      [ ("thermal_cycle_count", v.thermal_cycle_count) ])
  , ("environmental_sensors",
      [ ("ambient_air_temperature_c", v.ambient_air_temperature_c) ])
  , ("operational_context",
      [ ("vehicle_load_estimated_kg", v.vehicle_load_estimated_kg) ]) ]

/-- Predicate 1 as a boolean on full packets. -/
def pred1b (v : SensorValues) : Bool :=
  decide (v.battery_cell_max_voltage_v - v.battery_cell_min_voltage_v > 0.08) &&
  decide (v.battery_pack_current_a > 120)

/-- Predicate 2 as a boolean on full packets. -/
def pred2b (v : SensorValues) : Bool :=
  decide (v.motor_rpm > 7600) && decide (v.inverter_temperature_c > 56) &&
  decide (v.battery_temp_rise_rate_c_per_min > 0.48)

/-- Predicate 3 as a boolean on full packets. -/
def pred3b (v : SensorValues) : Bool :=
  decide (v.battery_pack_voltage_v < 370) && decide (v.battery_pack_current_a > 125)

/-- Predicate 4 as a boolean on full packets. -/
def pred4b (v : SensorValues) : Bool :=
  decide (v.gps_vs_wheel_speed_delta > 2.2) && decide (v.wheel_speed_variance_ratio > 1.06)

/-- Predicate 5 as a boolean on full packets. -/
def pred5b (v : SensorValues) : Bool :=
  decide (v.thermal_cycle_count > 950) && decide (v.battery_temperature_avg_c > 33.5)

/-- Predicate 6 as a boolean on full packets. -/
def pred6b (v : SensorValues) : Bool :=
  decide (v.ambient_air_temperature_c > 30) && decide (v.vehicle_load_estimated_kg > 220) &&
  decide (v.battery_pack_current_a > 122)

/-- The rule check every stream-driver loop performs around `ruleGate`
(src/fetch.py lines 182-186 and 271-275, src/main.py lines 207-211):
`try: rule_ok = ruleGate(...) except: rule_ok = True`. -/
def checkRule (packet : Packet) (MD : List (String × ℚ)) : Bool :=
  match ruleGate packet MD with
  | Except.ok b => b
  | Except.error _ => true

deriving instance DecidableEq for Except

/-! ## Rolling buffer

`collections.deque(maxlen=cap)` as used for `rolling_buffer` in src/main.py
line 71 (`maxlen=300`) and `anomaly_buffer` / `buffer` in src/fetch.py
lines 176 and 255 (`maxlen=BUFFER_SIZE_SECONDS`).  Appending to a full
deque evicts the oldest element; with `maxlen=0` every append is
discarded. -/

/-- One `deque.append`: keep the last `cap` elements of `buf ++ [x]`. -/
def bufAppend {α : Type} (cap : Nat) (buf : List α) (x : α) : List α :=
  (buf ++ [x]).drop (buf.length + 1 - cap)

/-- The buffer contents after appending the elements of `xs`, in order, to
an initially empty deque of capacity `cap`. -/
def bufFromList {α : Type} (cap : Nat) (xs : List α) : List α :=
  xs.foldl (bufAppend cap) []

/-! ## Per-episode escalation latch

The `rca_capa_triggered` flag of src/main.py (initialised `False` on line
77, updated on lines 289-299 of `packet_stream_worker`).  Written as a step
function on one buffer-occupancy reading: first the trigger check
(`if len(rolling_buffer) >= 20 and not rca_capa_triggered`, which sets the
flag and fires the heavy RCA/CAPA escalation), then the reset check
(`if len(rolling_buffer) < 20`, which clears the flag).  The state is the
latch plus the number of heavy escalations fired so far. -/

/-- One iteration of the RCA/CAPA trigger logic at buffer occupancy `occ`. -/
def latchStep (s : Bool × Nat) (occ : Nat) : Bool × Nat :=
  let s1 := if 20 ≤ occ ∧ s.1 = false then (true, s.2 + 1) else s
  if occ < 20 then (false, s1.2) else s1

/-- The latch state after a run over the given occupancy readings, starting
from the initial state (flag `False`, no escalations fired). -/
def latchRun (occs : List Nat) : Bool × Nat :=
  occs.foldl latchStep (false, 0)

/-! ## Stream driver with external analysis collaborator

`load_and_process_all_packets` from src/fetch.py lines 142-232, with the
external analysis collaborator of `send_buffer_to_llm` (lines 36-129)
abstracted as a behavior oracle per packet index: the agent call may
succeed, fail to import (`ImportError` branch), raise inside
`send_buffer_to_llm` (broad `except Exception` branch), or fail in the
call mechanism itself, escaping `send_buffer_to_llm` and hitting the
driver's own `except` (lines 213-215). -/

/-- Outcome of one attempted call of the external analysis collaborator. -/
inductive CollabBehavior : Type
  | ok (data : String)
  | importFail (msg : String)
  | raises (msg : String)
  | callFail (msg : String)
deriving DecidableEq

/-- The analysis dictionary recorded for an escalation: its `status` field,
the `error` field when present, and the agent's analysis text on success. -/
structure AnalysisResult : Type where
  status : String
  error : Option String
  analysis : Option String
deriving DecidableEq

/-- `send_buffer_to_llm` (src/fetch.py lines 36-129): catches `ImportError`
(returns status `agent_unavailable`) and any exception raised by the agent
call (returns status `error`); an exception in the call mechanism itself
escapes (modelled as `Except.error`). -/
def send_buffer_to_llm (behavior : CollabBehavior) : Except String AnalysisResult :=
  match behavior with
  | CollabBehavior.ok data =>
      Except.ok { status := "success", error := none, analysis := some data }
  | CollabBehavior.importFail _ =>
      Except.ok { status := "agent_unavailable", error := none, analysis := none }
  | CollabBehavior.raises msg =>
      Except.ok { status := "error", error := some msg, analysis := none }
  | CollabBehavior.callFail msg => Except.error msg

/-- The driver-side wrapper of the escalation call (src/fetch.py lines
203-215): `try: analysis = asyncio.run(send_buffer_to_llm(...)) except e:
analysis = dict(status="failed", error=str(e))`. -/
def dispatchAnalysis (behavior : CollabBehavior) : AnalysisResult :=
  match send_buffer_to_llm behavior with
  | Except.ok r => r
  | Except.error e => { status := "failed", error := some e, analysis := none }

/-- A processed packet as appended to `processed_packets`: the packet with
its `_rule_result` and `_packet_index` annotations (src/fetch.py lines
188-192). -/
structure ProcPacket : Type where
  pkt : Packet
  rule_result : Bool
  packet_index : Nat
deriving DecidableEq

/-- An entry of `anomalies_detected` (src/fetch.py lines 217-221), keyed by
packet index, with its `llm_analysis` value (`None` when LLM analysis is
disabled). -/
structure LedgerEntry : Type where
  packet_index : Nat
  llm_analysis : Option AnalysisResult
deriving DecidableEq

/-- The per-packet processing loop of `load_and_process_all_packets`
(src/fetch.py lines 178-226): check the rules with the exception guard,
annotate and record the packet, append it to the rolling buffer and, on an
anomaly, dispatch the escalation and record a ledger entry.  Returns the
processed-packet list and the anomaly ledger. -/
def processLoop (collab : Nat → CollabBehavior) (MD : List (String × ℚ))
    (enableLLM : Bool) :
    Nat → List Packet → List Packet → List ProcPacket × List LedgerEntry
  | _, _, [] => ([], [])
  | idx, buf, packet :: rest =>
    let rule_ok := checkRule packet MD
    let proc : ProcPacket := { pkt := packet, rule_result := rule_ok, packet_index := idx }
    let buf2 := bufAppend 300 buf packet
    let restOut := processLoop collab MD enableLLM (idx + 1) buf2 rest
    if rule_ok then
      (proc :: restOut.1, restOut.2)
    else
      (proc :: restOut.1,
        { packet_index := idx
        , llm_analysis :=
            if enableLLM then some (dispatchAnalysis (collab idx)) else none } :: restOut.2)

/-! ## Escalation payload snapshots

In Python the buffer holds references to packet objects, and the payload's
`"data": list(buffer)` (src/fetch.py lines 48-53) copies the reference
list, not the packets.  The store maps addresses to packet objects; a
buffer or a captured payload is a list of addresses. -/

/-- What a captured payload's `data` entry denotes: the packet object at
each captured address (`none` for a dangling address). -/
def payloadView (store : List Packet) (refs : List Nat) : List (Option Packet) :=
  refs.map (fun a => store[a]?)

/-- `list(buffer)`: a fresh list holding the same packet references. -/
def snapshotRefs (buf : List Nat) : List Nat := buf

/-- In-place mutation of the packet object stored at address `a`. -/
def storeSet (store : List Packet) (a : Nat) (p : Packet) : List Packet :=
  store.set a p

/-! ## Concrete packets used in scenarios and witnesses -/

/-- Benign full packet of the predicate-1 scenario: cell delta 0.09,
pack current 121 A, every other reading well inside its limits. -/
def vAnom : SensorValues :=
  { battery_cell_max_voltage_v := 4.09
  , battery_cell_min_voltage_v := 4
  , battery_pack_current_a := 121
  , battery_pack_voltage_v := 390
  , battery_temperature_avg_c := 25
  , motor_rpm := 1000
  , inverter_temperature_c := 30
  , battery_temp_rise_rate_c_per_min := 0.1
  , gps_vs_wheel_speed_delta := 0
  , wheel_speed_variance_ratio := 1
  , thermal_cycle_count := 100
  , ambient_air_temperature_c := 20
  , vehicle_load_estimated_kg := 100 }

/-- The same packet with pack current 100 A instead of 121 A. -/
def vLowCur : SensorValues := { vAnom with battery_pack_current_a := 100 }

/-- A packet in which every reading sits exactly at a threshold used by the
gate (cell delta exactly 0.08, current 120 A, rpm 7600, and so on). -/
def vBoundary : SensorValues :=
  { battery_cell_max_voltage_v := 4.08
  , battery_cell_min_voltage_v := 4
  , battery_pack_current_a := 120
  , battery_pack_voltage_v := 370
  , battery_temperature_avg_c := 33.5
  , motor_rpm := 7600
  , inverter_temperature_c := 56
  , battery_temp_rise_rate_c_per_min := 0.48
  , gps_vs_wheel_speed_delta := 2.2
  , wheel_speed_variance_ratio := 1.06
  , thermal_cycle_count := 950
  , ambient_air_temperature_c := 30
  , vehicle_load_estimated_kg := 220 }

/-- A packet in which every one of the six predicates has exactly one true
conjunct: elevated cell delta, low pack voltage, high rpm, high GPS delta,
high cycle count and high ambient temperature, with every co-occurring
conjunct false. -/
def vSingles : SensorValues :=
  { battery_cell_max_voltage_v := 4.09
  , battery_cell_min_voltage_v := 4
  , battery_pack_current_a := 100
  , battery_pack_voltage_v := 350
  , battery_temperature_avg_c := 20
  , motor_rpm := 8000
  , inverter_temperature_c := 40
  , battery_temp_rise_rate_c_per_min := 0.1
  , gps_vs_wheel_speed_delta := 3
  , wheel_speed_variance_ratio := 1
  , thermal_cycle_count := 1000
  , ambient_air_temperature_c := 35
  , vehicle_load_estimated_kg := 100 }

/-- A packet firing predicate 5 (thermal aging): 1000 thermal cycles and
35 °C average battery temperature, all other readings benign. -/
def vAging : SensorValues :=
  { battery_cell_max_voltage_v := 4
  , battery_cell_min_voltage_v := 4
  , battery_pack_current_a := 50
  , battery_pack_voltage_v := 390
  , battery_temperature_avg_c := 35
  , motor_rpm := 1000
  , inverter_temperature_c := 30
  , battery_temp_rise_rate_c_per_min := 0.1
  , gps_vs_wheel_speed_delta := 0
  , wheel_speed_variance_ratio := 1
  , thermal_cycle_count := 1000
  , ambient_air_temperature_c := 20
  , vehicle_load_estimated_kg := 100 }

/-- A sparse packet with no battery group at all, but whose
signal-consistency readings would satisfy both conjuncts of predicate 4. -/
def pktSparse : Packet :=
  [ ("signal_consistency",
      [ ("gps_vs_wheel_speed_delta", 3)
      , ("wheel_speed_variance_ratio", 2) ]) ]

/-- A collaborator that always raises inside the agent call. -/
def collabRaises : Nat → CollabBehavior := fun _ => CollabBehavior.raises "boom"

/-! ## Shared lemmas about the gate on full packets -/


lemma pGet_mk_maxv (v : SensorValues) :
    pGet (mkPacket v) "battery_sensors" "battery_cell_max_voltage_v" =
      Except.ok v.battery_cell_max_voltage_v := rfl

lemma pGet_mk_minv (v : SensorValues) :
    pGet (mkPacket v) "battery_sensors" "battery_cell_min_voltage_v" =
      Except.ok v.battery_cell_min_voltage_v := rfl

lemma pGet_mk_cur (v : SensorValues) :
    pGet (mkPacket v) "battery_sensors" "battery_pack_current_a" =
      Except.ok v.battery_pack_current_a := rfl

lemma pGet_mk_pv (v : SensorValues) :
    pGet (mkPacket v) "battery_sensors" "battery_pack_voltage_v" =
      Except.ok v.battery_pack_voltage_v := rfl

lemma pGet_mk_btavg (v : SensorValues) :
    pGet (mkPacket v) "battery_sensors" "battery_temperature_avg_c" =
      Except.ok v.battery_temperature_avg_c := rfl

lemma pGet_mk_rpm (v : SensorValues) :
    pGet (mkPacket v) "motor_inverter_sensors" "motor_rpm" = Except.ok v.motor_rpm := rfl

lemma pGet_mk_itemp (v : SensorValues) :
    pGet (mkPacket v) "motor_inverter_sensors" "inverter_temperature_c" =
      Except.ok v.inverter_temperature_c := rfl

lemma pGet_mk_rise (v : SensorValues) :
    pGet (mkPacket v) "rate_of_change" "battery_temp_rise_rate_c_per_min" =
      Except.ok v.battery_temp_rise_rate_c_per_min := rfl

lemma pGet_mk_gps (v : SensorValues) :
    pGet (mkPacket v) "signal_consistency" "gps_vs_wheel_speed_delta" =
      Except.ok v.gps_vs_wheel_speed_delta := rfl

lemma pGet_mk_vr (v : SensorValues) :
    pGet (mkPacket v) "signal_consistency" "wheel_speed_variance_ratio" =
      Except.ok v.wheel_speed_variance_ratio := rfl

lemma pGet_mk_tcc (v : SensorValues) :
    pGet (mkPacket v) "component_aging" "thermal_cycle_count" =
      Except.ok v.thermal_cycle_count := rfl

lemma pGet_mk_amb (v : SensorValues) :
    pGet (mkPacket v) "environmental_sensors" "ambient_air_temperature_c" =
      Except.ok v.ambient_air_temperature_c := rfl

lemma pGet_mk_load (v : SensorValues) :
    pGet (mkPacket v) "operational_context" "vehicle_load_estimated_kg" =
      Except.ok v.vehicle_load_estimated_kg := rfl

lemma except_bind_ok {ε α β : Type} (a : α) (f : α → Except ε β) :
    (Except.ok a : Except ε α) >>= f = f a := rfl

lemma except_pure {ε α : Type} (a : α) : (pure a : Except ε α) = Except.ok a := rfl

lemma gateCheck1_mk (v : SensorValues) :
    gateCheck1 (mkPacket v) = Except.ok (pred1b v) := by
  unfold gateCheck1
  rw [pGet_mk_maxv, pGet_mk_minv]
  simp only [except_bind_ok]
  rw [pGet_mk_cur]
  by_cases h1 : v.battery_cell_max_voltage_v - v.battery_cell_min_voltage_v > 0.08 <;>
    simp [h1, pred1b, except_bind_ok, except_pure]

lemma gateCheck2_mk (v : SensorValues) :
    gateCheck2 (mkPacket v) = Except.ok (pred2b v) := by
  unfold gateCheck2
  rw [pGet_mk_rpm]
  simp only [except_bind_ok]
  rw [pGet_mk_itemp, pGet_mk_rise]
  by_cases h1 : v.motor_rpm > 7600 <;> by_cases h2 : v.inverter_temperature_c > 56 <;>
    simp [h1, h2, pred2b, except_bind_ok, except_pure]

lemma gateCheck3_mk (v : SensorValues) :
    gateCheck3 (mkPacket v) = Except.ok (pred3b v) := by
  unfold gateCheck3
  rw [pGet_mk_pv]
  simp only [except_bind_ok]
  rw [pGet_mk_cur]
  by_cases h1 : v.battery_pack_voltage_v < 370 <;>
    simp [h1, pred3b, except_bind_ok, except_pure]

lemma gateCheck4_mk (v : SensorValues) :
    gateCheck4 (mkPacket v) = Except.ok (pred4b v) := by
  unfold gateCheck4
  rw [pGet_mk_gps]
  simp only [except_bind_ok]
  rw [pGet_mk_vr]
  by_cases h1 : v.gps_vs_wheel_speed_delta > 2.2 <;>
    simp [h1, pred4b, except_bind_ok, except_pure]

lemma gateCheck5_mk (v : SensorValues) :
    gateCheck5 (mkPacket v) = Except.ok (pred5b v) := by
  unfold gateCheck5
  rw [pGet_mk_tcc]
  simp only [except_bind_ok]
  rw [pGet_mk_btavg]
  by_cases h1 : v.thermal_cycle_count > 950 <;>
    simp [h1, pred5b, except_bind_ok, except_pure]

lemma gateCheck6_mk (v : SensorValues) :
    gateCheck6 (mkPacket v) = Except.ok (pred6b v) := by
  unfold gateCheck6
  rw [pGet_mk_amb]
  simp only [except_bind_ok]
  rw [pGet_mk_load, pGet_mk_cur]
  by_cases h1 : v.ambient_air_temperature_c > 30 <;>
    by_cases h2 : v.vehicle_load_estimated_kg > 220 <;>
    simp [h1, h2, pred6b, except_bind_ok, except_pure]

lemma ruleGate_mk_healthy (v : SensorValues) (MD : List (String × ℚ))
    (h1 : pred1b v = false) (h2 : pred2b v = false) (h3 : pred3b v = false)
    (h4 : pred4b v = false) (h5 : pred5b v = false) (h6 : pred6b v = false) :
    ruleGate (mkPacket v) MD = Except.ok true := by
  unfold ruleGate
  rw [gateCheck1_mk, h1]
  simp only [except_bind_ok, Bool.false_eq_true, if_false]
  rw [gateCheck2_mk, h2]
  simp only [except_bind_ok, Bool.false_eq_true, if_false]
  rw [gateCheck3_mk, h3]
  simp only [except_bind_ok, Bool.false_eq_true, if_false]
  rw [gateCheck4_mk, h4]
  simp only [except_bind_ok, Bool.false_eq_true, if_false]
  rw [gateCheck5_mk, h5]
  simp only [except_bind_ok, Bool.false_eq_true, if_false]
  rw [gateCheck6_mk, h6]
  simp only [except_bind_ok, Bool.false_eq_true, if_false, except_pure]

/-! ## Shared lemmas about the rolling buffer -/


lemma bufAppend_last {α : Type} (cap : Nat) (ys : List α) (x : α) :
    bufAppend cap (ys.drop (ys.length - cap)) x = (ys ++ [x]).drop (ys.length + 1 - cap) := by
  unfold bufAppend
  rcases le_or_lt ys.length cap with h | h
  · rw [Nat.sub_eq_zero_of_le h, List.drop_zero]
  · rw [List.length_drop]
    have hcap : ys.length - (ys.length - cap) = cap := by omega
    rw [hcap]
    have h1 : cap + 1 - cap = 1 := by omega
    rw [h1]
    rcases Nat.eq_zero_or_pos cap with hc | hc
    · subst hc
      rw [Nat.sub_zero, List.drop_length]
      have h2 : (([] : List α) ++ [x]).drop 1 = [] := rfl
      rw [h2, eq_comm]
      apply List.drop_eq_nil_of_le
      simp
    · rw [List.drop_append_of_le_length
        (by rw [List.length_drop]; omega : 1 ≤ (ys.drop (ys.length - cap)).length)]
      rw [List.drop_drop,
        List.drop_append_of_le_length (by omega : ys.length + 1 - cap ≤ ys.length)]
      congr 2
      omega

lemma bufFromList_eq {α : Type} (cap : Nat) (xs : List α) :
    bufFromList cap xs = xs.drop (xs.length - cap) := by
  induction xs using List.reverseRecOn with
  | nil => simp [bufFromList]
  | append_singleton ys x ih =>
      unfold bufFromList at ih ⊢
      rw [List.foldl_append, List.foldl_cons, List.foldl_nil, ih, bufAppend_last,
        List.length_append]
      simp

/-! ## Shared lemmas about the latch and the driver loop -/


lemma latchStep_low (s : Bool × Nat) (occ : Nat) (h : occ < 20) :
    (latchStep s occ).1 = false := by
  simp [latchStep, h]

lemma latchStep_high (s : Bool × Nat) (occ : Nat) (h : 20 ≤ occ) :
    (latchStep s occ).1 = true := by
  rcases s with ⟨l, n⟩
  cases l <;> simp [latchStep, h, Nat.not_lt.mpr h]

lemma latch_fold_true (m : List Nat) (h : ∀ occ ∈ m, 20 ≤ occ) (n : Nat) :
    m.foldl latchStep (true, n) = (true, n) := by
  induction m with
  | nil => rfl
  | cons occ rest ih =>
      have hocc : 20 ≤ occ := h occ (List.mem_cons_self occ rest)
      have hstep : latchStep (true, n) occ = (true, n) := by
        simp [latchStep, Nat.not_lt.mpr hocc]
      rw [List.foldl_cons, hstep]
      exact ih (fun o ho => h o (List.mem_cons_of_mem occ ho))

lemma latch_fold_le (m : List Nat) (h : ∀ occ ∈ m, 20 ≤ occ) (l : Bool) (n : Nat) :
    (m.foldl latchStep (l, n)).2 ≤ n + 1 := by
  cases l
  · cases m with
    | nil => exact Nat.le_succ n
    | cons occ rest =>
        have hocc : 20 ≤ occ := h occ (List.mem_cons_self occ rest)
        have hstep : latchStep (false, n) occ = (true, n + 1) := by
          simp [latchStep, hocc, Nat.not_lt.mpr hocc]
        rw [List.foldl_cons, hstep,
          latch_fold_true rest (fun o ho => h o (List.mem_cons_of_mem occ ho)) (n + 1)]
  · rw [latch_fold_true m h n]
    exact Nat.le_succ n

lemma processLoop_length (collab : Nat → CollabBehavior) (MD : List (String × ℚ))
    (enableLLM : Bool) (packets : List Packet) :
    ∀ idx buf, (processLoop collab MD enableLLM idx buf packets).1.length = packets.length := by
  induction packets with
  | nil => intro idx buf; rfl
  | cons packet rest ih =>
      intro idx buf
      unfold processLoop
      cases h : checkRule packet MD <;> simp [h, ih]

lemma processLoop_ledger (collab : Nat → CollabBehavior) (MD : List (String × ℚ))
    (packets : List Packet) :
    ∀ idx buf e, e ∈ (processLoop collab MD true idx buf packets).2 →
      e.llm_analysis = some (dispatchAnalysis (collab e.packet_index)) := by
  induction packets with
  | nil => intro idx buf e he; cases he
  | cons packet rest ih =>
      intro idx buf e he
      unfold processLoop at he
      cases h : checkRule packet MD
      · rw [h] at he
        simp only [Bool.false_eq_true, if_false] at he
        rcases List.mem_cons.mp he with he1 | he2
        · subst he1; rfl
        · exact ih (idx + 1) (bufAppend 300 buf packet) e he2
      · rw [h] at he
        simp only [if_true] at he
        exact ih (idx + 1) (bufAppend 300 buf packet) e he

lemma dispatchAnalysis_failure (b : CollabBehavior) (h : ∀ d, b ≠ CollabBehavior.ok d) :
    (dispatchAnalysis b).status = "agent_unavailable" ∨
    (dispatchAnalysis b).status = "error" ∨ (dispatchAnalysis b).status = "failed" := by
  cases b with
  | ok d => exact absurd rfl (h d)
  | importFail m => exact Or.inl rfl
  | raises m => exact Or.inr (Or.inl rfl)
  | callFail m => exact Or.inr (Or.inr rfl)

/-! ## Claims -/

/-- Claim C1, as stated, is false on the code: on a packet missing every
sensor field, `ruleGate` does not treat the predicates as non-matching and
return Healthy; it raises a `KeyError` for the first missing key
(`battery_sensors`) and evaluates no further predicate. -/
theorem c1_counterexample :
    ruleGate ([] : Packet) [] = Except.error "battery_sensors" ∧
    ruleGate ([] : Packet) [] ≠ Except.ok true :=
  ⟨rfl, by decide⟩

/-- Claim C1 (amended): `ruleGate` raises a `KeyError` at the first absent
field it accesses, so the remaining predicates are not evaluated; every
stream-driver loop catches the exception and defaults the packet to
Healthy, so a packet missing all sensor fields is classified Healthy
end-to-end and the stream is never aborted by sparse data. -/
theorem c1_missing_field_policy (MD : List (String × ℚ)) :
    ruleGate ([] : Packet) MD = Except.error "battery_sensors" ∧
    ∀ (p : Packet) (msg : String),
      ruleGate p MD = Except.error msg → checkRule p MD = true := by
  refine ⟨rfl, ?_⟩
  intro p msg h
  simp [checkRule, h]

/-- Witness for C1: the all-fields-missing packet makes the gate raise, and
the driver-side check classifies it Healthy. -/
theorem c1_witness :
    ruleGate ([] : Packet) [] = Except.error "battery_sensors" ∧
    checkRule ([] : Packet) [] = true :=
  ⟨(c1_missing_field_policy []).1,
   (c1_missing_field_policy []).2 [] "battery_sensors" (c1_missing_field_policy []).1⟩

/-- Claim C2: the heavy (RCA/CAPA) escalation fires at most once per
contiguous interval of buffer occupancy at or above 20: over any stretch of
readings all at or above 20 the fire count grows by at most one; the latch
is cleared by any reading below 20 and set by any reading at or above 20;
and the 19 → 20 → 15 → 20 scenario fires exactly twice. -/
theorem c2_heavy_escalation_latch :
    (∀ p m : List Nat, (∀ occ ∈ m, 20 ≤ occ) →
        (latchRun (p ++ m)).2 ≤ (latchRun p).2 + 1) ∧
    (∀ (s : Bool × Nat) (occ : Nat), occ < 20 → (latchStep s occ).1 = false) ∧
    (∀ (s : Bool × Nat) (occ : Nat), 20 ≤ occ → (latchStep s occ).1 = true) ∧
    (latchRun [19, 20, 21, 15, 20]).2 = 2 := by
  refine ⟨?_, latchStep_low, latchStep_high, by decide⟩
  intro p m hm
  unfold latchRun
  rw [List.foldl_append]
  rcases hp : List.foldl latchStep (false, 0) p with ⟨l, n⟩
  exact latch_fold_le m hm l n

/-- Witness for C2 at concrete occupancy traces and latch states. -/
theorem c2_witness :
    (latchRun ([19] ++ [20, 25])).2 ≤ (latchRun [19]).2 + 1 ∧
    (latchStep (true, 1) 15).1 = false ∧
    (latchStep (false, 0) 20).1 = true :=
  ⟨c2_heavy_escalation_latch.1 [19] [20, 25] (by decide),
   c2_heavy_escalation_latch.2.1 (true, 1) 15 (by decide),
   c2_heavy_escalation_latch.2.2.1 (false, 0) 20 (by decide)⟩

/-- Claim C3: the rolling buffer never exceeds its capacity; after
`cap + k` appends (`k > 0`) it has length exactly `cap` and holds exactly
the last `cap` appended elements in arrival order; appending packets
1..25 to a capacity-10 buffer leaves size 10 with packet 16 first. -/
theorem c3_rolling_buffer :
    (∀ (α : Type) (cap : Nat) (xs : List α), (bufFromList cap xs).length ≤ cap) ∧
    (∀ (α : Type) (cap k : Nat) (xs : List α), 0 < k → xs.length = cap + k →
        (bufFromList cap xs).length = cap ∧ bufFromList cap xs = xs.drop k) ∧
    (bufFromList 10 (List.range' 1 25)).length = 10 ∧
    (bufFromList 10 (List.range' 1 25)).head? = some 16 := by
  refine ⟨?_, ?_, by decide, by decide⟩
  · intro α cap xs
    rw [bufFromList_eq, List.length_drop]
    omega
  · intro α cap k xs hk hlen
    have hdrop : xs.length - cap = k := by omega
    rw [bufFromList_eq, hdrop, List.length_drop]
    exact ⟨by omega, rfl⟩

/-- Witness for C3: five appends into a capacity-3 buffer keep the last
three elements. -/
theorem c3_witness :
    (bufFromList 3 [10, 20, 30, 40, 50]).length = 3 ∧
    bufFromList 3 [10, 20, 30, 40, 50] = [10, 20, 30, 40, 50].drop 2 :=
  c3_rolling_buffer.2.1 Nat 3 2 [10, 20, 30, 40, 50] (by decide) (by decide)

unseal Rat.sub Rat.ofScientific in
/-- Claim C4, as stated, is false on the code: with an empty threshold
mapping the gate does not degrade to always-Healthy; a packet with 1000
thermal cycles and 35 °C average battery temperature is still classified
Anomalous, because the thresholds are hardcoded constants. -/
theorem c4_counterexample : ruleGate (mkPacket vAging) [] = Except.ok false := by decide

/-- Claim C4 (amended): the threshold mapping passed to `ruleGate` is never
read, so the gate behaves with an empty threshold set exactly as with any
other: the verdict is decided by the hardcoded constants alone. -/
theorem c4_md_unread (p : Packet) (MD : List (String × ℚ)) :
    ruleGate p MD = ruleGate p [] := rfl

/-- Claim C5: every gate predicate is an AND-only conjunction, so a packet
satisfying exactly one conjunct of a predicate (all its other conjuncts
false) never makes that predicate fire; and if every predicate is in that
situation the gate verdict is Healthy — a single elevated reading alone is
never an anomaly. -/
theorem c5_and_only_conjunctions (v : SensorValues) (MD : List (String × ℚ)) :
    ((v.battery_cell_max_voltage_v - v.battery_cell_min_voltage_v > 0.08 ∧
        ¬ v.battery_pack_current_a > 120) ∨
      (¬ v.battery_cell_max_voltage_v - v.battery_cell_min_voltage_v > 0.08 ∧
        v.battery_pack_current_a > 120) →
      pred1b v = false) ∧
    ((v.motor_rpm > 7600 ∧ ¬ v.inverter_temperature_c > 56 ∧
        ¬ v.battery_temp_rise_rate_c_per_min > 0.48) ∨
      (¬ v.motor_rpm > 7600 ∧ v.inverter_temperature_c > 56 ∧
        ¬ v.battery_temp_rise_rate_c_per_min > 0.48) ∨
      (¬ v.motor_rpm > 7600 ∧ ¬ v.inverter_temperature_c > 56 ∧
        v.battery_temp_rise_rate_c_per_min > 0.48) →
      pred2b v = false) ∧
    ((v.battery_pack_voltage_v < 370 ∧ ¬ v.battery_pack_current_a > 125) ∨
      (¬ v.battery_pack_voltage_v < 370 ∧ v.battery_pack_current_a > 125) →
      pred3b v = false) ∧
    ((v.gps_vs_wheel_speed_delta > 2.2 ∧ ¬ v.wheel_speed_variance_ratio > 1.06) ∨
      (¬ v.gps_vs_wheel_speed_delta > 2.2 ∧ v.wheel_speed_variance_ratio > 1.06) →
      pred4b v = false) ∧
    ((v.thermal_cycle_count > 950 ∧ ¬ v.battery_temperature_avg_c > 33.5) ∨
      (¬ v.thermal_cycle_count > 950 ∧ v.battery_temperature_avg_c > 33.5) →
      pred5b v = false) ∧
    ((v.ambient_air_temperature_c > 30 ∧ ¬ v.vehicle_load_estimated_kg > 220 ∧
        ¬ v.battery_pack_current_a > 122) ∨
      (¬ v.ambient_air_temperature_c > 30 ∧ v.vehicle_load_estimated_kg > 220 ∧
        ¬ v.battery_pack_current_a > 122) ∨
      (¬ v.ambient_air_temperature_c > 30 ∧ ¬ v.vehicle_load_estimated_kg > 220 ∧
        v.battery_pack_current_a > 122) →
      pred6b v = false) ∧
    (pred1b v = false → pred2b v = false → pred3b v = false → pred4b v = false →
      pred5b v = false → pred6b v = false →
      ruleGate (mkPacket v) MD = Except.ok true) := by
  refine ⟨?_, ?_, ?_, ?_, ?_, ?_, ruleGate_mk_healthy v MD⟩
  · rintro (⟨ha, hb⟩ | ⟨ha, hb⟩) <;> simp [pred1b, ha, hb]
  · rintro (⟨ha, hb, hc⟩ | ⟨ha, hb, hc⟩ | ⟨ha, hb, hc⟩) <;> simp [pred2b, ha, hb, hc]
  · rintro (⟨ha, hb⟩ | ⟨ha, hb⟩) <;> simp [pred3b, ha, hb]
  · rintro (⟨ha, hb⟩ | ⟨ha, hb⟩) <;> simp [pred4b, ha, hb]
  · rintro (⟨ha, hb⟩ | ⟨ha, hb⟩) <;> simp [pred5b, ha, hb]
  · rintro (⟨ha, hb, hc⟩ | ⟨ha, hb, hc⟩ | ⟨ha, hb, hc⟩) <;> simp [pred6b, ha, hb, hc]

unseal Rat.sub Rat.ofScientific in
/-- Witness for C5: a packet in which each of the six predicates has
exactly one true conjunct fires no predicate and is Healthy. -/
theorem c5_witness :
    pred1b vSingles = false ∧ pred2b vSingles = false ∧ pred3b vSingles = false ∧
    pred4b vSingles = false ∧ pred5b vSingles = false ∧ pred6b vSingles = false ∧
    ruleGate (mkPacket vSingles) [] = Except.ok true :=
  ⟨(c5_and_only_conjunctions vSingles []).1 (Or.inl (by decide)),
   (c5_and_only_conjunctions vSingles []).2.1 (Or.inl (by decide)),
   (c5_and_only_conjunctions vSingles []).2.2.1 (Or.inl (by decide)),
   (c5_and_only_conjunctions vSingles []).2.2.2.1 (Or.inl (by decide)),
   (c5_and_only_conjunctions vSingles []).2.2.2.2.1 (Or.inl (by decide)),
   (c5_and_only_conjunctions vSingles []).2.2.2.2.2.1 (Or.inl (by decide)),
   (c5_and_only_conjunctions vSingles []).2.2.2.2.2.2 (by decide) (by decide) (by decide)
     (by decide) (by decide) (by decide)⟩

unseal Rat.sub Rat.ofScientific in
/-- Claim C6: with the hardcoded thresholds 0.08 and 120, a full packet
with cell delta 0.09 and current 121 A is Anomalous via predicate 1; the
same packet with current 100 A is Healthy; and a packet sitting exactly at
every threshold is Healthy because all comparisons are strict. -/
theorem c6_predicate1_scenario :
    ruleGate (mkPacket vAnom) [] = Except.ok false ∧
    ruleGate (mkPacket vLowCur) [] = Except.ok true ∧
    ruleGate (mkPacket vBoundary) [] = Except.ok true :=
  ⟨by decide, by decide, by decide⟩

unseal Rat.sub Rat.ofScientific in
/-- Claim C7, as stated, is false on the code: the payload snapshot is a
shallow copy of the reference list, so mutating a packet object that is
still shared between the live buffer and a captured payload does change the
captured payload. -/
theorem c7_counterexample :
    payloadView (storeSet [mkPacket vAnom] 0 (mkPacket vAging)) (snapshotRefs [0]) ≠
      payloadView [mkPacket vAnom] (snapshotRefs [0]) := by decide

/-- Claim C7 (amended): the captured payload is a value copy of the
reference list: appending new packets to the live store, or mutating a
packet the payload does not reference, leaves a previously captured payload
unchanged; only in-place mutation of a still-shared packet object can
change it (and the implementation never mutates a packet after buffering
it). -/
theorem c7_snapshot_shallow_copy (store : List Packet) (refs : List Nat) (p : Packet)
    (h : ∀ a ∈ refs, a < store.length) :
    payloadView (store ++ [p]) (snapshotRefs refs) = payloadView store (snapshotRefs refs) ∧
    ∀ (a : Nat) (q : Packet), a ∉ refs →
      payloadView (storeSet store a q) (snapshotRefs refs) =
        payloadView store (snapshotRefs refs) := by
  constructor
  · unfold payloadView snapshotRefs
    apply List.map_congr_left
    intro a ha
    rw [List.getElem?_append, if_pos (h a ha)]
  · intro a q hq
    unfold payloadView snapshotRefs storeSet
    apply List.map_congr_left
    intro b hb
    refine List.getElem?_set_ne ?_
    intro heq
    rw [heq] at hq
    exact hq hb

unseal Rat.sub Rat.ofScientific in
/-- Witness for C7 at a one-packet store with one captured reference. -/
theorem c7_witness :
    payloadView ([mkPacket vAnom] ++ [mkPacket vAging]) (snapshotRefs [0]) =
      payloadView [mkPacket vAnom] (snapshotRefs [0]) ∧
    payloadView (storeSet [mkPacket vAnom] 1 (mkPacket vAging)) (snapshotRefs [0]) =
      payloadView [mkPacket vAnom] (snapshotRefs [0]) :=
  ⟨(c7_snapshot_shallow_copy [mkPacket vAnom] [0] (mkPacket vAging) (by decide)).1,
   (c7_snapshot_shallow_copy [mkPacket vAnom] [0] (mkPacket vAging) (by decide)).2
     1 (mkPacket vAging) (by decide)⟩

/-- Claim C8: however the external analysis collaborator behaves, the
driver loop processes every packet (no escalation failure halts it); every
ledger entry records the dispatched analysis for its packet index; and a
failing collaborator is recorded with status `agent_unavailable`, `error`
or `failed` rather than propagating. -/
theorem c8_escalation_failure_contained (collab : Nat → CollabBehavior)
    (MD : List (String × ℚ)) (packets : List Packet) :
    (processLoop collab MD true 0 [] packets).1.length = packets.length ∧
    (∀ e ∈ (processLoop collab MD true 0 [] packets).2,
        e.llm_analysis = some (dispatchAnalysis (collab e.packet_index))) ∧
    (∀ b : CollabBehavior, (∀ d, b ≠ CollabBehavior.ok d) →
        (dispatchAnalysis b).status = "agent_unavailable" ∨
        (dispatchAnalysis b).status = "error" ∨
        (dispatchAnalysis b).status = "failed") :=
  ⟨processLoop_length collab MD true packets 0 [],
   fun e he => processLoop_ledger collab MD packets 0 [] e he,
   dispatchAnalysis_failure⟩

unseal Rat.sub Rat.ofScientific in
/-- Witness for C8: a collaborator that always raises still lets the
driver process the whole (one-anomaly) stream and is recorded with status
`error` in the ledger. -/
theorem c8_witness :
    (processLoop collabRaises [] true 0 [] [mkPacket vAnom]).1.length = 1 ∧
    ({ packet_index := 0
     , llm_analysis := some { status := "error", error := some "boom", analysis := none } }
        : LedgerEntry).llm_analysis = some (dispatchAnalysis (collabRaises 0)) ∧
    ((dispatchAnalysis (collabRaises 0)).status = "agent_unavailable" ∨
      (dispatchAnalysis (collabRaises 0)).status = "error" ∨
      (dispatchAnalysis (collabRaises 0)).status = "failed") :=
  ⟨(c8_escalation_failure_contained collabRaises [] [mkPacket vAnom]).1,
   (c8_escalation_failure_contained collabRaises [] [mkPacket vAnom]).2.1 _ (by decide),
   (c8_escalation_failure_contained collabRaises [] [mkPacket vAnom]).2.2 (collabRaises 0)
     (fun d h => CollabBehavior.noConfusion h)⟩

/-- Claim C9: `ruleGate` never reads its threshold argument, so the verdict
depends only on the packet, and repeated evaluation of the same arguments
yields the same verdict (the gate is a pure function of the packet). -/
theorem c9_gate_ignores_thresholds (p : Packet) (MD1 MD2 : List (String × ℚ)) :
    ruleGate p MD1 = ruleGate p MD2 ∧ ruleGate p MD1 = ruleGate p MD1 :=
  ⟨rfl, rfl⟩

/-- Claim C10: when `ruleGate` raises on a packet, the driver's exception
guard records the packet as Healthy (`rule_ok` defaults to `True`), adds no
ledger entry for it — even if a later predicate would have matched — and
continues with the rest of the stream. -/
theorem c10_driver_defaults_healthy_on_gate_error (p : Packet)
    (MD : List (String × ℚ)) (msg : String)
    (h : ruleGate p MD = Except.error msg) :
    checkRule p MD = true ∧
    ∀ (collab : Nat → CollabBehavior) (enableLLM : Bool) (idx : Nat)
      (buf rest : List Packet),
      (processLoop collab MD enableLLM idx buf (p :: rest)).1 =
        { pkt := p, rule_result := true, packet_index := idx } ::
          (processLoop collab MD enableLLM (idx + 1) (bufAppend 300 buf p) rest).1 ∧
      (processLoop collab MD enableLLM idx buf (p :: rest)).2 =
        (processLoop collab MD enableLLM (idx + 1) (bufAppend 300 buf p) rest).2 := by
  have hc : checkRule p MD = true := by simp [checkRule, h]
  refine ⟨hc, ?_⟩
  intro collab enableLLM idx buf rest
  constructor <;> simp [processLoop, hc]

/-- Witness for C10: the sparse packet whose signal-consistency readings
would satisfy predicate 4 still ends up Healthy, with no ledger entry,
because the gate raises on the missing battery group first. -/
theorem c10_witness :
    checkRule pktSparse [] = true ∧
    (processLoop collabRaises [] true 0 [] [pktSparse]).2 =
      (processLoop collabRaises [] true 1 (bufAppend 300 [] pktSparse) []).2 :=
  ⟨(c10_driver_defaults_healthy_on_gate_error pktSparse [] "battery_sensors" (by decide)).1,
   ((c10_driver_defaults_healthy_on_gate_error pktSparse [] "battery_sensors"
      (by decide)).2 collabRaises true 0 [] []).2⟩

end VehicleFailure
